import Mathlib

/-!
Shallow embedding of the dbt-to-Superset sync core of `preset-backend-sdk`:

* `src/preset_cli/cli/superset/sync/dbt/metrics.py` — the metric expression
  compiler (`get_metric_expression`, `apply_filters`);
* `src/preset_cli/cli/superset/sync/dbt/datasets.py` — the dataset
  reconciliation engine (`sync_datasets` and its inner `get_deps_metrics`).

Python dynamic values that the claims need (remote metric records with
arbitrary keys, `meta` dictionaries, `meta.superset` override bags) are
modelled by ordered association lists over a small value type.  Python
exceptions are modelled with `Except`; the unbounded recursions of
`get_metric_expression` and `get_deps_metrics` are given explicit fuel, with
fuel exhaustion a distinguished outcome so that termination is expressible.
-/

/-- A quote character (Python `'`), used in string literals of the source. -/
def sglq : String := String.singleton (Char.ofNat 39)

deriving instance DecidableEq for Except

/-- Scalar Python values appearing in the records the claims touch. -/
inductive PyLeaf where
  | s (v : String)
  | b (v : Bool)
  | i (v : Int)
  | pynone
deriving DecidableEq, Repr

/-- A flat Python dictionary of scalars (e.g. a `meta.superset` override bag). -/
abbrev PyDict := List (String × PyLeaf)

/-- A Python value that is a scalar or a flat dictionary.  The embedding
bounds dictionary nesting at this depth: none of the records manipulated by
the source code at the claims' lines needs deeper nesting. -/
inductive PyVal where
  | leaf (l : PyLeaf)
  | dict (d : PyDict)
deriving DecidableEq, Repr

/-- An ordered Python dictionary with such values: the shape of a `meta`
dictionary and of the remote metric / column records. -/
abbrev RecordDict := List (String × PyVal)

/-- Python `d[k]` / `d.get(k)`: value at the first (in a real Python dict,
only) occurrence of the key. -/
def pyGet (d : RecordDict) (k : String) : Option PyVal :=
  (d.filter (fun kv => kv.1 = k)).head?.map (fun kv => kv.2)

/-- Python dictionary write `d[k] = v`: replaces the value in place when the
key exists (keeping its position), appends otherwise. -/
def pySet (d : RecordDict) (k : String) (v : PyVal) : RecordDict :=
  if d.any (fun kv => kv.1 = k) then
    d.map (fun kv => if kv.1 = k then (kv.1, v) else kv)
  else
    d ++ [(k, v)]

/-- Python `base.update(extra)` (also `{**base, **extra}`): upsert every
key of `extra` into `base`, in order. -/
def pyUpdate (base extra : RecordDict) : RecordDict :=
  extra.foldl (fun acc kv => pySet acc kv.1 kv.2) base

/-- Python `d.pop(k, default)` on a dictionary: the dictionary without the
key (other keys keep their order). -/
def pyPop (d : RecordDict) (k : String) : RecordDict :=
  d.filter (fun kv => kv.1 ≠ k)

/-- Python truthiness of a scalar (`bool(v)`). -/
def pyTruthy : PyLeaf → Bool
  | .s v => v ≠ ""
  | .b v => v
  | .i v => v ≠ 0
  | .pynone => false

/-- Python truthiness of a value. -/
def pyTruthyVal : PyVal → Bool
  | .leaf l => pyTruthy l
  | .dict d => d ≠ []

/-- Python `opt or fallback` on an optional string (`model.get("alias") or
model["name"]`): the fallback when the value is absent or falsy. -/
def pyOrString (opt : Option String) (fallback : String) : String :=
  match opt with
  | some v => if v = "" then fallback else v
  | none => fallback

/-- Rendering of `json.dumps` on a scalar. -/
def dumpsLeaf : PyLeaf → String
  | .s v => "\"" ++ v ++ "\""
  | .b true => "true"
  | .b false => "false"
  | .i v => toString v
  | .pynone => "null"

/-- Rendering of `json.dumps` on a flat dictionary (Python default
separators; string escaping is not modelled — no claim exercises it). -/
def dumpsDict (d : PyDict) : String :=
  "\x7b" ++ String.intercalate ", "
    (d.map (fun kv => "\"" ++ kv.1 ++ "\": " ++ dumpsLeaf kv.2)) ++ "\x7d"

/-- Rendering of `json.dumps` on a value. -/
def dumpsVal : PyVal → String
  | .leaf l => dumpsLeaf l
  | .dict d => dumpsDict d

/-- Rendering of `json.dumps` on a record dictionary. -/
def dumpsRecord (d : RecordDict) : String :=
  "\x7b" ++ String.intercalate ", "
    (d.map (fun kv => "\"" ++ kv.1 ++ "\": " ++ dumpsVal kv.2)) ++ "\x7d"

/-- Worker for Python `str.replace` with a non-empty pattern: scan left to
right, replacing every non-overlapping occurrence.  The fuel argument is
always called with the length of the scanned list, which suffices because
every step consumes at least one character; it only makes the recursion
structural (hence kernel-reducible). -/
def pyReplaceGo (pat rep : List Char) : Nat → List Char → List Char
  | _, [] => []
  | 0, l => l
  | fuel + 1, c :: rest =>
    if pat.isPrefixOf (c :: rest) then
      rep ++ pyReplaceGo pat rep fuel (rest.drop (pat.length - 1))
    else
      c :: pyReplaceGo pat rep fuel rest

/-- Python `s.replace(pat, rep)`: every non-overlapping occurrence, left to
right; with an empty pattern Python inserts the replacement at every
boundary. -/
def pyReplace (s pat rep : String) : String :=
  if pat.data = [] then
    ⟨rep.data ++ (s.data.map (fun c => c :: rep.data)).flatten⟩
  else
    ⟨pyReplaceGo pat.data rep.data s.data.length s.data⟩

/-- A dbt metric filter clause (`FilterSchema`): the dictionary keys
`field`, `operator` (here `op`: the source's key name is a Lean keyword) and
`value`. -/
structure FilterSchema where
  field : String
  op : String
  value : String
deriving DecidableEq, Repr

/-- A dbt metric record (`MetricSchema`), with the fields the source reads.
Optional fields model keys that may be absent from the dictionary; `meta` is
the metric's nested metadata dictionary. -/
structure MetricSchema where
  name : String
  calculation_method : String
  expression : String
  filters : List FilterSchema := []
  metrics : List (List String) := []
  depends_on : List String := []
  typ : Option String := none
  label : Option String := none
  description : Option String := none
  meta : RecordDict := []
deriving DecidableEq, Repr

/-- A dbt model column (`ColumnSchema`): declared data type, description and
nested metadata. -/
structure ColumnSchema where
  data_type : String
  description : Option String := none
  meta : RecordDict := []
deriving DecidableEq, Repr

/-- A dbt model record (`ModelSchema`), with the fields `sync_datasets`
reads.  `columns` is the ordered `name -> column` dictionary; `aliasName`
embeds the source's `alias` key (a Lean keyword). -/
structure ModelSchema where
  unique_id : String
  name : String
  aliasName : Option String := none
  database : String := ""
  schema : String := ""
  description : Option String := none
  columns : List (String × ColumnSchema) := []
  meta : RecordDict := []
deriving DecidableEq, Repr

/-- Failure outcomes of `get_metric_expression`.  `outOfFuel` is the
embedding's marker for a recursion that has not finished within the given
fuel; the other two are the `Exception`s the source raises. -/
inductive MetricCompileError where
  | outOfFuel
  | invalidMetric (name : String)
  | unsupportedMethod (name : String)
deriving DecidableEq, Repr

/-- The `simple_mappings` dictionary of `get_metric_expression`. -/
def simpleMappings : List (String × String) :=
  [("count", "COUNT"), ("sum", "SUM"), ("average", "AVG"),
   ("min", "MIN"), ("max", "MAX")]

/-- Rendering of one filter: `"{field} {operator} {value}".format(**filter_)`. -/
def renderFilter (f : FilterSchema) : String :=
  f.field ++ " " ++ f.op ++ " " ++ f.value

/-- The source's `apply_filters`: AND-join the rendered filters in list
order and wrap the expression in a `CASE WHEN ... THEN ... END` guard. -/
def applyFilters (sql : String) (filters : List FilterSchema) : String :=
  "CASE WHEN " ++ String.intercalate " AND " (filters.map renderFilter) ++
    " THEN " ++ sql ++ " END"

/-- Compilation of the child metrics of a derived/expression metric, in
order, stopping at the first error (Python raises out of the list
comprehension). -/
def compileDeps (g : String → Except MetricCompileError String) :
    List String → Except MetricCompileError (List (String × String))
  | [] => .ok []
  | n :: rest => do
    let e ← g n
    let tail ← compileDeps g rest
    .ok ((n, e) :: tail)

/-- The source's `get_metric_expression`, with explicit fuel bounding the
recursion depth of the derived/expression branch (the source has no such
bound; `.error .outOfFuel` marks a run that would still be recursing). -/
def getMetricExpression (fuel : Nat) (metric_name : String)
    (metrics : List (String × MetricSchema)) : Except MetricCompileError String :=
  match fuel with
  | 0 => .error .outOfFuel
  | fuel + 1 =>
    match metrics.lookup metric_name with
    | none => .error (.invalidMetric metric_name)
    | some metric =>
      let expression := metric.expression
      let expression :=
        if metric.filters ≠ [] then applyFilters expression metric.filters
        else expression
      match simpleMappings.lookup metric.calculation_method with
      | some function =>
        .ok ("COALESCE(" ++ function ++ "(" ++ expression ++ "), 0)")
      | none =>
        if metric.calculation_method = "count_distinct" then
          .ok ("COUNT(DISTINCT " ++ expression ++ ")")
        else if metric.calculation_method = "derived" ∨
            metric.calculation_method = "expression" then
          match compileDeps (fun n => getMetricExpression fuel n metrics)
              metric.metrics.flatten with
          | .error e => .error e
          | .ok deps =>
            .ok (deps.foldl (fun expr child => pyReplace expr child.1 child.2)
              expression)
        else if metric.calculation_method = "median" then
          .ok ("COALESCE(PERCENTILE_CONT(0.5) WITHIN GROUP (ORDER BY " ++
            expression ++ " ASC), 0)")
        else
          .error (.unsupportedMethod metric_name)

/-- Python exceptions escaping (or fuel exhaustion inside) `sync_datasets`.
`ambiguous` is the source's `raise Exception("More than one dataset
found")`; `indexError` is the `[...][0]` of an empty list inside
`get_deps_metrics`; `keyError`, `typeError` and `attributeError` are the
corresponding Python errors on dictionary access and splatting; the metric
compiler's errors propagate unchanged. -/
inductive SyncError where
  | ambiguous
  | keyError
  | indexError
  | typeError
  | attributeError
  | outOfFuel
  | invalidMetric (name : String)
  | unsupportedMethod (name : String)
  | datasetNotFound
deriving DecidableEq, Repr

/-- A remote dataset record.  Modelled from the spec: the remote service's
state is not part of the staged sources; per the spec a dataset holds metric
records, column records, and an `extra` JSON blob carrying the originating
model's unique identifier (`extraUniqueId` is that identifier, already
parsed; `none` models an `extra` blob without the key).  `fields` collects
the other updated fields. -/
structure RemoteDataset where
  id : Nat
  database : Nat
  table_name : String
  schema : String := ""
  extraUniqueId : Option String := none
  metrics : List RecordDict := []
  columns : List RecordDict := []
  fields : RecordDict := []
deriving DecidableEq, Repr

/-- The remote service's state: its datasets and the next fresh id. -/
structure SyncState where
  datasets : List RemoteDataset
  nextId : Nat := 0
deriving DecidableEq, Repr

/-- The non-model arguments of `sync_datasets`: the target database's id,
the `disallow_edits` flag, the external URL prefix (`""` embeds the falsy
empty prefix) and, modelled from the spec ("If creation fails, log and skip
this model"), the set of table names whose remote creation fails. -/
structure SyncCfg where
  databaseId : Nat
  disallowEdits : Bool := false
  externalUrl : String := ""
  failCreate : List String := []
deriving DecidableEq, Repr

/-- Modelled from the spec: the client's dataset query, "list/filter
datasets by (database id, table name)" (`client.get_datasets(database=...,
table_name=...)`; the `SupersetClient` is not under the staged sources). -/
def clientGetDatasets (st : SyncState) (databaseId : Nat) (tableName : String) :
    List RemoteDataset :=
  st.datasets.filter (fun d => d.database == databaseId && d.table_name == tableName)

/-- Modelled from the spec: "fetch full dataset detail by id"
(`client.get_dataset(id)`). -/
def clientGetDataset (st : SyncState) (id : Nat) : Option RemoteDataset :=
  (st.datasets.filter (fun d => d.id == id)).head?

/-- The record a successful create call returns: a fresh dataset with no
metrics, columns or extra blob yet. -/
def createdRecord (databaseId : Nat) (schemaName tableName : String) (id : Nat) :
    RemoteDataset :=
  { id := id, database := databaseId, schema := schemaName, table_name := tableName }

/-- Modelled from the spec: "create dataset (database id, schema, table
name, optional raw SQL body) returning an id".  The physical/virtual SQL
body (`create_dataset`'s SQLAlchemy branch) involves only collaborators
outside the staged sources and no tracked field, so it is not distinguished
here. -/
def clientCreateDataset (st : SyncState) (databaseId : Nat)
    (schemaName tableName : String) : RemoteDataset × SyncState :=
  let d := createdRecord databaseId schemaName tableName st.nextId
  (d, { datasets := st.datasets ++ [d], nextId := st.nextId + 1 })

/-- Modelled from the spec: "update dataset by id with a field set and an
`overrideColumns` flag".  A payload carrying `metrics` (resp. `columns`)
replaces that list — the spec's step 3 says pushing `metrics: []` clears the
metrics; other payload fields are upserted; writing the `extra` blob stores
the model's unique identifier used for idempotent re-matching.  (A
`meta.superset` override bag smuggling a `metrics`/`columns` key is outside
the modelled value universe: `PyVal` holds no record lists.) -/
def clientUpdateDataset (st : SyncState) (id : Nat)
    (metricsField : Option (List RecordDict)) (columnsField : Option (List RecordDict))
    (others : RecordDict) (newUid : Option String) : SyncState :=
  { st with
    datasets := st.datasets.map (fun d =>
      if d.id == id then
        { d with
          metrics := metricsField.getD d.metrics,
          columns := columnsField.getD d.columns,
          fields := pyUpdate d.fields others,
          extraUniqueId := match newUid with
            | some u => some u
            | none => d.extraUniqueId }
      else d) }

/-- The disambiguation comprehension of `sync_datasets` (lines 88-92): keep
the candidates whose `extra` unique identifier equals the model's; a
candidate whose `extra` blob has no such key raises a `KeyError` out of
`json.loads(item["extra"])["unique_id"]`. -/
def filterByUid : List RemoteDataset → String → Except SyncError (List RemoteDataset)
  | [], _ => .ok []
  | d :: rest, uid =>
    match d.extraUniqueId with
    | none => .error .keyError
    | some u => do
      let tail ← filterByUid rest uid
      .ok (if uid = u then d :: tail else tail)

/-- The lookup-and-recurse step of `get_deps_metrics` over the flattened
sub-metric names: for each referenced name, `[metric_value for metric_value
in metrics if metric_value["name"] == real_metric][0]` (an empty filter
raises `IndexError`), then the recursive call (passed in as `g`). -/
def getDepsList (g : MetricSchema → Except SyncError (List String))
    (manifest : List MetricSchema) :
    List String → Except SyncError (List (List String))
  | [] => .ok []
  | real :: rest =>
    match (manifest.filter (fun mv => mv.name = real)).head? with
    | none => .error .indexError
    | some mv => do
      let d ← g mv
      let tail ← getDepsList g manifest rest
      .ok (d :: tail)

/-- The inner `get_deps_metrics` of `sync_datasets`: the model identifiers a
metric depends on, directly or through its nested `metrics` name groups.
The source recursion is unbounded; fuel exhaustion is `.error .outOfFuel`. -/
def getDepsMetrics (manifest : List MetricSchema) :
    Nat → MetricSchema → Except SyncError (List String)
  | 0, _ => .error .outOfFuel
  | fuel + 1, metric =>
    if metric.metrics.length > 0 then
      match getDepsList (getDepsMetrics manifest fuel) manifest
          metric.metrics.flatten with
      | .error e => .error e
      | .ok result => .ok (metric.depends_on ++ result.flatten)
    else
      .ok metric.depends_on

/-- Insertion into the `model_metrics` dictionary comprehension: a repeated
key keeps its first position and takes the later value. -/
def assocUpsert (l : List (String × MetricSchema)) (k : String) (v : MetricSchema) :
    List (String × MetricSchema) :=
  if l.any (fun p => p.1 = k) then
    l.map (fun p => if p.1 = k then (k, v) else p)
  else
    l ++ [(k, v)]

/-- Worker for the `model_metrics` comprehension: walk the manifest in
order, keeping the metrics whose dependency closure contains the model's
unique identifier. -/
def buildModelMetricsGo (fuel : Nat) (manifest : List MetricSchema) (uid : String) :
    List MetricSchema → List (String × MetricSchema) →
    Except SyncError (List (String × MetricSchema))
  | [], acc => .ok acc
  | metric :: rest, acc => do
    let deps ← getDepsMetrics manifest fuel metric
    buildModelMetricsGo fuel manifest uid rest
      (if uid ∈ deps then assocUpsert acc metric.name metric else acc)

/-- The `model_metrics` dictionary of `sync_datasets` (lines 147-151). -/
def buildModelMetrics (fuel : Nat) (manifest : List MetricSchema) (uid : String) :
    Except SyncError (List (String × MetricSchema)) :=
  buildModelMetricsGo fuel manifest uid manifest []

/-- The `metric_keys` list of `sync_datasets`. -/
def metricKeys : List String :=
  ["d3format", "description", "expression", "extra", "metric_name",
   "metric_type", "verbose_name", "warning_text"]

/-- The carried part of `dataset_metrics` (lines 153-162): existing remote
metric records whose name is neither the literal `count` nor a manifest
metric name, each projected onto `metric_keys` (in field order).  A record
without a `metric_name` key raises `KeyError`. -/
def carriedMetrics : List RecordDict → List String → Except SyncError (List RecordDict)
  | [], _ => .ok []
  | m :: rest, names =>
    match pyGet m "metric_name" with
    | none => .error .keyError
    | some v => do
      let tail ← carriedMetrics rest names
      if v ≠ PyVal.leaf (.s "count") ∧
          v ∉ names.map (fun n => PyVal.leaf (.s n)) then
        .ok (m.filter (fun kv => kv.1 ∈ metricKeys) :: tail)
      else
        .ok tail

/-- Removal of the `superset` key from the metric `meta` dictionary that the
`model_metrics` mapping aliases: `meta.pop("superset", {})` mutates the
manifest's own record — the last manifest entry with the metric's name,
since the dictionary comprehension keeps the last value for a repeated
key. -/
def popSupersetLast : List MetricSchema → String → List MetricSchema
  | [], _ => []
  | m :: rest, name =>
    if rest.any (fun x => x.name = name) then m :: popSupersetLast rest name
    else if m.name = name then
      { m with meta := pyPop m.meta "superset" } :: rest
    else m :: rest

/-- The `meta.superset` bag as a splat source: Python `{**kwargs}` /
`update(...)` on a non-mapping value raises `TypeError`. -/
def supersetBag (meta : RecordDict) : Except SyncError PyDict :=
  match pyGet meta "superset" with
  | some (.dict d) => .ok d
  | some (.leaf _) => .error .typeError
  | none => .ok []

/-- The metric-append loop of `sync_datasets` (lines 163-177): for each
entry of `model_metrics` in order, pop the `superset` bag out of the
metric's `meta` (a mutation of the manifest, threaded through), compile the
expression against `model_metrics`, and build the pushed record — the
literal's fields in order, then the bag's entries splatted over them.
Returns the new records and the mutated manifest. -/
def buildNewMetrics (fuel : Nat) (mm : List (String × MetricSchema)) :
    List (String × MetricSchema) → List MetricSchema →
    Except SyncError (List RecordDict × List MetricSchema)
  | [], manifest => .ok ([], manifest)
  | (name, metric) :: rest, manifest => do
    let kwargs ← supersetBag metric.meta
    let meta := pyPop metric.meta "superset"
    let manifest := popSupersetLast manifest metric.name
    let expression ←
      match getMetricExpression fuel name mm with
      | .ok e => Except.ok e
      | .error .outOfFuel => Except.error SyncError.outOfFuel
      | .error (.invalidMetric n) => Except.error (SyncError.invalidMetric n)
      | .error (.unsupportedMethod n) =>
        Except.error (SyncError.unsupportedMethod n)
    let payload : RecordDict :=
      [("expression", .leaf (.s expression)),
       ("metric_name", .leaf (.s name)),
       ("metric_type", .leaf (.s (pyOrString metric.typ metric.calculation_method))),
       ("verbose_name", .leaf (.s (metric.label.getD name))),
       ("description", .leaf (.s (metric.description.getD ""))),
       ("extra", .leaf (.s (dumpsRecord meta)))]
    let payload := pyUpdate payload (kwargs.map (fun kv => (kv.1, PyVal.leaf kv.2)))
    let (tail, manifest) ← buildNewMetrics fuel mm rest manifest
    .ok (payload :: tail, manifest)

/-- The table name used to locate or create the dataset:
`model.get("alias") or model["name"]`. -/
def tableNameOf (model : ModelSchema) : String :=
  pyOrString model.aliasName model.name

/-- The `extra` blob of the base update (lines 107-113). -/
def extraBlob (model : ModelSchema) : RecordDict :=
  [("unique_id", .leaf (.s model.unique_id)),
   ("depends_on", .leaf (.s ("ref(" ++ sglq ++ model.name ++ sglq ++ ")"))),
   ("certification", .dict [("details", .s "This table is produced by dbt")])]

/-- The non-`metrics` fields of the base update (lines 180-190): the
literal's fields, then the model's `meta.superset` bag upserted over them,
then — with a configured external URL — the deep-link `external_url`
(`str(base_url.with_fragment(...))` is embedded as plain concatenation; no
claim exercises URL encoding). -/
def baseUpdatePayload (cfg : SyncCfg) (model : ModelSchema) :
    Except SyncError RecordDict := do
  let bag ← supersetBag model.meta
  let update : RecordDict :=
    [("description", .leaf (.s (model.description.getD ""))),
     ("schema", .leaf (.s model.schema)),
     ("extra", .leaf (.s (dumpsRecord (extraBlob model)))),
     ("is_managed_externally", .leaf (.b cfg.disallowEdits))]
  let update := pyUpdate update (bag.map (fun kv => (kv.1, PyVal.leaf kv.2)))
  if cfg.externalUrl ≠ "" then
    .ok (pySet update "external_url"
      (.leaf (.s (cfg.externalUrl ++ "#!/model/" ++ model.unique_id))))
  else
    .ok update

/-- The `is_dttm` override read from a column's metadata:
`column.get("meta", {}).get("superset", {}).get("is_dttm", False)`; calling
`.get` on a non-dictionary `superset` value raises `AttributeError`. -/
def colSupersetIsDttm (c : ColumnSchema) : Except SyncError PyLeaf :=
  match pyGet c.meta "superset" with
  | some (.leaf _) => .error .attributeError
  | some (.dict d) =>
    .ok (((d.filter (fun kv => kv.1 = "is_dttm")).head?.map (fun kv => kv.2)).getD
      (.b false))
  | none => .ok (.b false)

/-- The pushed `is_dttm` flag (lines 206-210): `column["data_type"] ==
"timestamp" if not <override> else False`. -/
def colIsDttm (c : ColumnSchema) : Except SyncError Bool := do
  let ov ← colSupersetIsDttm c
  .ok (if !(pyTruthy ov) then c.data_type == "timestamp" else false)

/-- One entry of the column update payload (lines 203-211). -/
def colEntry (nc : String × ColumnSchema) : Except SyncError RecordDict := do
  let flag ← colIsDttm nc.2
  .ok [("column_name", .leaf (.s nc.1)),
       ("description", .leaf (.s (nc.2.description.getD ""))),
       ("is_dttm", .leaf (.b flag))]

/-- The column update payload (lines 201-214), over the model's columns in
order. -/
def columnsPayload : List (String × ColumnSchema) → Except SyncError (List RecordDict)
  | [] => .ok []
  | nc :: rest => do
    let e ← colEntry nc
    let tail ← columnsPayload rest
    .ok (e :: tail)

/-- The tail of one loop iteration of `sync_datasets` after the dataset has
been located or created (lines 107-218): fetch the detail, compute the
metric diff, push the base update (clearing metrics), push the merged
metrics when non-empty, push the columns when the model has any, and yield
the located/created summary. -/
def afterLocate (fuel : Nat) (cfg : SyncCfg) (model : ModelSchema)
    (manifest : List MetricSchema) (st : SyncState) (dataset : RemoteDataset) :
    Except SyncError (Option RemoteDataset × List MetricSchema × SyncState) := do
  let datasetInfo ←
    match clientGetDataset st dataset.id with
    | some d => Except.ok d
    | none => Except.error SyncError.datasetNotFound
  let existingMetrics := datasetInfo.metrics
  let modelMetrics ← buildModelMetrics fuel manifest model.unique_id
  let modelMetricsNames := manifest.map (fun m => m.name)
  let carried ← carriedMetrics existingMetrics modelMetricsNames
  let (newMetrics, manifest) ← buildNewMetrics fuel modelMetrics modelMetrics manifest
  let datasetMetrics := carried ++ newMetrics
  let others ← baseUpdatePayload cfg model
  let st := clientUpdateDataset st dataset.id (some []) none others
    (some model.unique_id)
  let st :=
    if datasetMetrics ≠ [] then
      clientUpdateDataset st dataset.id (some datasetMetrics) none [] none
    else st
  let cols ← columnsPayload model.columns
  let st :=
    if cols ≠ [] then clientUpdateDataset st dataset.id none (some cols) [] none
    else st
  .ok (some dataset, manifest, st)

/-- One loop iteration of `sync_datasets` (lines 80-218): locate the
dataset (with the ambiguity check raising out of the whole call), or create
it — a failing create is logged and the model skipped (`none`). -/
def processModel (fuel : Nat) (cfg : SyncCfg) (model : ModelSchema)
    (manifest : List MetricSchema) (st : SyncState) :
    Except SyncError (Option RemoteDataset × List MetricSchema × SyncState) := do
  let tableName := tableNameOf model
  let existing := clientGetDatasets st cfg.databaseId tableName
  let existing ←
    if existing.length > 1 then filterByUid existing model.unique_id
    else Except.ok existing
  if existing.length > 1 then
    Except.error SyncError.ambiguous
  else
    match existing.head? with
    | some dataset => afterLocate fuel cfg model manifest st dataset
    | none =>
      if tableName ∈ cfg.failCreate then
        .ok (none, manifest, st)
      else
        let (dataset, st) := clientCreateDataset st cfg.databaseId model.schema tableName
        afterLocate fuel cfg model manifest st dataset

/-- The source's `sync_datasets`: fold `processModel` over the models,
accumulating the located/created summaries in order; an uncaught error
aborts the whole batch.  The returned triple also carries the final
manifest metric records (the source mutates them in place) and the final
remote state. -/
def syncDatasets (fuel : Nat) (cfg : SyncCfg) :
    List ModelSchema → List MetricSchema → SyncState →
    Except SyncError (List RemoteDataset × List MetricSchema × SyncState)
  | [], manifest, st => .ok ([], manifest, st)
  | model :: rest, manifest, st => do
    let (res, manifest, st) ← processModel fuel cfg model manifest st
    let (tail, manifest, st) ← syncDatasets fuel cfg rest manifest st
    .ok (res.toList ++ tail, manifest, st)

/-! ## Fixtures used by the claims -/

/-- The spec's simple-metric example: method `sum`, expression `amount`. -/
def revenueMetric : MetricSchema :=
  { name := "revenue", calculation_method := "sum", expression := "amount" }

/-- The spec's filter example: `field country, operator =, value 'US'`. -/
def usFilter : FilterSchema :=
  { field := "country", op := "=", value := sglq ++ "US" ++ sglq }

/-- The filtered sum metric of the spec's filter example. -/
def usMetric : MetricSchema :=
  { name := "revenue_us", calculation_method := "sum", expression := "amount",
    filters := [usFilter] }

/-- A self-referential derived metric: `a` is compiled from `a`. -/
def cyclicMetric : MetricSchema :=
  { name := "a", calculation_method := "derived", expression := "a",
    metrics := [["a"]] }

/-- The one-metric cyclic mapping. -/
def cyclicMetrics : List (String × MetricSchema) := [("a", cyclicMetric)]

/-- A derived metric referencing `revenue`, for an acyclic witness. -/
def ratioMetric : MetricSchema :=
  { name := "ratio", calculation_method := "derived",
    expression := "revenue * 2", metrics := [["revenue"]] }

/-- An acyclic two-metric mapping. -/
def ratioMetrics : List (String × MetricSchema) :=
  [("revenue", revenueMetric), ("ratio", ratioMetric)]

/-! ## C1 -/

/-- C1, counterexample: on the claim's own example (method `sum`, expression
`amount`) the compiler returns `COALESCE(SUM(amount), 0)`, not the claimed
bare `SUM(amount)`. -/
theorem claim1_counterexample :
    getMetricExpression 1 "revenue" [("revenue", revenueMetric)] =
      .ok "COALESCE(SUM(amount), 0)" ∧
    ("COALESCE(SUM(amount), 0)" : String) ≠ "SUM(amount)" := by
  decide

/-- C1 (amended): for every metric whose calculation method is one of
count/sum/average/min/max, `get_metric_expression` returns
`COALESCE(<FUNC>(<expr>), 0)` — the corresponding SQL aggregate of the
(possibly filter-wrapped) expression, wrapped in `COALESCE(..., 0)`. -/
theorem claim1_theorem (fuel : Nat) (name : String)
    (metrics : List (String × MetricSchema)) (metric : MetricSchema)
    (func : String)
    (hlook : metrics.lookup name = some metric)
    (hsimple : simpleMappings.lookup metric.calculation_method = some func) :
    getMetricExpression (fuel + 1) name metrics =
      .ok ("COALESCE(" ++ func ++ "(" ++
        (if metric.filters ≠ [] then applyFilters metric.expression metric.filters
         else metric.expression) ++ "), 0)") := by
  simp [getMetricExpression, hlook, hsimple]

/-- C1, witness: the amended statement evaluated on the `sum`/`amount`
example. -/
theorem claim1_witness :
    getMetricExpression 1 "revenue" [("revenue", revenueMetric)] =
      .ok "COALESCE(SUM(amount), 0)" := by
  rw [claim1_theorem 0 "revenue" [("revenue", revenueMetric)] revenueMetric
    "SUM" (by decide) (by decide)]
  decide

/-! ## C2 -/

/-- C2, counterexample: on the claim's own metric (sum of `amount` filtered
by `country = 'US'`) the compiler returns
`COALESCE(SUM(CASE WHEN country = 'US' THEN amount END), 0)` — the filter
guard is inside the aggregate and `COALESCE` is outermost — not the claimed
`CASE WHEN country = 'US' THEN SUM(amount) END`. -/
theorem claim2_counterexample :
    getMetricExpression 1 "revenue_us" [("revenue_us", usMetric)] =
      .ok ("COALESCE(SUM(CASE WHEN country = " ++ sglq ++ "US" ++ sglq ++
        " THEN amount END), 0)") ∧
    getMetricExpression 1 "revenue_us" [("revenue_us", usMetric)] ≠
      .ok ("CASE WHEN country = " ++ sglq ++ "US" ++ sglq ++
        " THEN SUM(amount) END") := by
  decide

/-- C2 (amended): for a simple-aggregate metric with filters, the filter
guard wraps the bare expression and the aggregate wraps the guard (with
`COALESCE(..., 0)` outermost): the result is
`COALESCE(<FUNC>(CASE WHEN <filters> THEN <expr> END), 0)`, with each filter
rendered as `{field} {operator} {value}` and multiple filters joined by
`" AND "` in list order; on the claim's example,
`COALESCE(SUM(CASE WHEN country = 'US' THEN amount END), 0)`. -/
theorem claim2_theorem (fuel : Nat) (name : String)
    (metrics : List (String × MetricSchema)) (metric : MetricSchema)
    (func : String)
    (hlook : metrics.lookup name = some metric)
    (hsimple : simpleMappings.lookup metric.calculation_method = some func)
    (hfilters : metric.filters ≠ []) :
    getMetricExpression (fuel + 1) name metrics =
      .ok ("COALESCE(" ++ func ++ "(" ++
        ("CASE WHEN " ++
          String.intercalate " AND " (metric.filters.map renderFilter) ++
          " THEN " ++ metric.expression ++ " END") ++ "), 0)") := by
  simp [getMetricExpression, hlook, hsimple, hfilters, applyFilters]

/-- C2, witness: the amended statement evaluated on the `country = 'US'`
example. -/
theorem claim2_witness :
    getMetricExpression 1 "revenue_us" [("revenue_us", usMetric)] =
      .ok ("COALESCE(SUM(CASE WHEN country = " ++ sglq ++ "US" ++ sglq ++
        " THEN amount END), 0)") := by
  rw [claim2_theorem 0 "revenue_us" [("revenue_us", usMetric)] usMetric
    "SUM" (by decide) (by decide) (by decide)]
  decide

/-! ## C9 -/

/-- Binding a successful `Except` computation applies the continuation. -/
@[simp] theorem except_bind_ok {ε α β : Type} (a : α) (f : α → Except ε β) :
    (Except.ok a : Except ε α) >>= f = f a := rfl

/-- Binding a failed `Except` computation propagates the error. -/
@[simp] theorem except_bind_error {ε α β : Type} (e : ε) (f : α → Except ε β) :
    (Except.error e : Except ε α) >>= f = Except.error e := rfl

/-- A successful dictionary lookup comes from an entry of the list. -/
theorem lookup_mem {name : String} {metrics : List (String × MetricSchema)}
    {m : MetricSchema} (h : metrics.lookup name = some m) :
    (name, m) ∈ metrics := by
  induction metrics with
  | nil => simp [List.lookup] at h
  | cons p rest ih =>
    obtain ⟨k, v⟩ := p
    rw [List.lookup_cons] at h
    cases hbeq : name == k
    · simp only [hbeq] at h
      exact List.mem_cons_of_mem _ (ih h)
    · simp only [hbeq, Option.some.injEq] at h
      have hnk : name = k := eq_of_beq hbeq
      subst hnk
      subst h
      exact List.mem_cons_self _ _

/-- Acyclicity of the metric-reference graph of a mapping, witnessed by a
rank function that decreases across every derived/expression reference. -/
abbrev RankOk (r : String → Nat) (metrics : List (String × MetricSchema)) : Prop :=
  ∀ p ∈ metrics,
    (p.2.calculation_method = "derived" ∨ p.2.calculation_method = "expression") →
    ∀ n ∈ p.2.metrics.flatten, r n < r p.1

/-- When no child compilation runs out of fuel, neither does the list
compilation. -/
theorem compileDeps_ne_outOfFuel (g : String → Except MetricCompileError String)
    (l : List String) (h : ∀ n ∈ l, g n ≠ .error .outOfFuel) :
    compileDeps g l ≠ .error .outOfFuel := by
  induction l with
  | nil => simp [compileDeps]
  | cons n rest ih =>
    simp only [compileDeps]
    cases hg : g n with
    | error e =>
      have hne := h n (List.mem_cons_self n rest)
      rw [hg] at hne
      simp only [except_bind_error]
      intro he
      injection he with he'
      exact hne (by rw [he'])
    | ok v =>
      simp only [except_bind_ok]
      cases hr : compileDeps g rest with
      | error e =>
        have hne := ih (fun n' hn' => h n' (List.mem_cons_of_mem _ hn'))
        rw [hr] at hne
        simpa using hne
      | ok tail => simp

/-- With fuel exceeding the metric's rank, compilation over an acyclic
mapping does not run out of fuel. -/
theorem getMetricExpression_terminates (r : String → Nat)
    (metrics : List (String × MetricSchema)) (h : RankOk r metrics) :
    ∀ fuel name, r name < fuel →
      getMetricExpression fuel name metrics ≠ .error .outOfFuel := by
  intro fuel
  induction fuel using Nat.strong_induction_on with
  | _ fuel ih =>
    intro name hr
    match fuel, hr with
    | f + 1, hr =>
      rw [getMetricExpression]
      cases hlook : metrics.lookup name with
      | none => simp
      | some metric =>
        simp only
        cases hsimple : simpleMappings.lookup metric.calculation_method with
        | some func => simp
        | none =>
          simp only
          by_cases hcd : metric.calculation_method = "count_distinct"
          · simp [hcd]
          · simp only [if_neg hcd]
            by_cases hde : metric.calculation_method = "derived" ∨
                metric.calculation_method = "expression"
            · simp only [if_pos hde]
              have hchild : ∀ n ∈ metric.metrics.flatten,
                  getMetricExpression f n metrics ≠ .error .outOfFuel := by
                intro n hn
                have hmem := lookup_mem hlook
                have hlt : r n < r name := h (name, metric) hmem hde n hn
                have hf : r name ≤ f := Nat.lt_succ_iff.mp hr
                exact ih f (Nat.lt_succ_self f) n (Nat.lt_of_lt_of_le hlt hf)
              have := compileDeps_ne_outOfFuel
                (fun n => getMetricExpression f n metrics)
                metric.metrics.flatten hchild
              cases hdeps : compileDeps (fun n => getMetricExpression f n metrics)
                  metric.metrics.flatten with
              | error e =>
                rw [hdeps] at this
                simp only
                intro hcontra
                apply this
                cases hcontra
                rfl
              | ok deps => simp
            · simp only [if_neg hde]
              by_cases hmed : metric.calculation_method = "median"
              · simp [hmed]
              · simp [hmed]

/-- C9: over any metric mapping whose reference graph is acyclic (witnessed
by a rank function decreasing across every derived/expression reference),
`get_metric_expression` terminates for every name — some fuel suffices; and
the acyclicity precondition is necessary: on the one-metric cyclic mapping
(`a` referencing `a`) the compilation exhausts every fuel, i.e. the source's
unguarded recursion is unbounded. -/
theorem claim9_theorem :
    (∀ (metrics : List (String × MetricSchema)) (r : String → Nat),
      RankOk r metrics → ∀ name, ∃ fuel,
        getMetricExpression fuel name metrics ≠ .error .outOfFuel) ∧
    (∀ fuel, getMetricExpression fuel "a" cyclicMetrics = .error .outOfFuel) := by
  constructor
  · intro metrics r h name
    exact ⟨r name + 1,
      getMetricExpression_terminates r metrics h (r name + 1) name
        (Nat.lt_succ_self _)⟩
  · intro fuel
    induction fuel with
    | zero => rfl
    | succ f ih =>
      have h1 : getMetricExpression (f + 1) "a" cyclicMetrics =
          match compileDeps (fun n => getMetricExpression f n cyclicMetrics)
            ["a"] with
          | .error e => .error e
          | .ok deps =>
            .ok (deps.foldl (fun expr child => pyReplace expr child.1 child.2)
              "a") := rfl
      have h2 : compileDeps (fun n => getMetricExpression f n cyclicMetrics)
          ["a"] = .error .outOfFuel := by
        simp only [compileDeps, ih, except_bind_error]
      rw [h1, h2]

/-- C9, witness: an acyclic two-metric mapping compiles within some fuel,
and the cyclic mapping exhausts fuel 3. -/
theorem claim9_witness :
    (∃ fuel, getMetricExpression fuel "ratio" ratioMetrics ≠
      .error .outOfFuel) ∧
    getMetricExpression 3 "a" cyclicMetrics = .error .outOfFuel := by
  constructor
  · exact claim9_theorem.1 ratioMetrics
      (fun n => if n = "ratio" then 1 else 0) (by decide) "ratio"
  · exact claim9_theorem.2 3

/-! ## Fixtures for the reconciliation claims -/

/-- A model whose table name is `t`. -/
def modelX : ModelSchema := { unique_id := "model.x", name := "t", schema := "s" }

/-- An independent model whose table name is `u`. -/
def modelY : ModelSchema := { unique_id := "model.y", name := "u", schema := "s" }

/-- A configuration for database 7 with no failing creates. -/
def cfg7 : SyncCfg := { databaseId := 7 }

/-- A configuration where creating table `t` fails remotely. -/
def cfgFail : SyncCfg := { databaseId := 7, failCreate := ["t"] }

/-- A remote dataset on table `t` claiming `model.x` in its extra blob. -/
def dupA : RemoteDataset :=
  { id := 1, database := 7, table_name := "t", extraUniqueId := some "model.x" }

/-- A second remote dataset on table `t` also claiming `model.x`. -/
def dupB : RemoteDataset :=
  { id := 2, database := 7, table_name := "t", extraUniqueId := some "model.x" }

/-- A remote dataset on table `t` claiming an unrelated model. -/
def strangerA : RemoteDataset :=
  { id := 1, database := 7, table_name := "t", extraUniqueId := some "model.o1" }

/-- Another remote dataset on table `t` claiming an unrelated model. -/
def strangerB : RemoteDataset :=
  { id := 2, database := 7, table_name := "t", extraUniqueId := some "model.o2" }

/-- A remote `count` metric record. -/
def countRecord : RecordDict :=
  [("id", .leaf (.i 10)), ("metric_name", .leaf (.s "count")),
   ("expression", .leaf (.s "COUNT(*)"))]

/-- A remote manually-curated metric record with a remote-only `id` field. -/
def legacyRecord : RecordDict :=
  [("id", .leaf (.i 11)), ("metric_name", .leaf (.s "legacy")),
   ("expression", .leaf (.s "SUM(x)")), ("d3format", .leaf (.s ",d"))]

/-- The `legacy` record as the sync re-pushes it: projected onto
`metric_keys`, so without the `id` field. -/
def legacyProjected : RecordDict :=
  [("metric_name", .leaf (.s "legacy")), ("expression", .leaf (.s "SUM(x)")),
   ("d3format", .leaf (.s ",d"))]

/-- A remote dataset for `model.x` holding the `count` and `legacy`
metrics. -/
def dsWithCount : RemoteDataset :=
  { id := 1, database := 7, table_name := "t", extraUniqueId := some "model.x",
    metrics := [countRecord, legacyRecord] }

/-! ## Helper lemmas about record projection and the carried metrics -/

/-- Reading a key from a consed record dictionary. -/
theorem pyGet_cons (kv : String × PyVal) (t : RecordDict) (k : String) :
    pyGet (kv :: t) k = if kv.1 = k then some kv.2 else pyGet t k := by
  by_cases h : kv.1 = k <;> simp [pyGet, List.filter_cons, h]

/-- Projecting a record onto `metric_keys` preserves any key of
`metric_keys`. -/
theorem pyGet_projection (l : RecordDict) {k : String} (hk : k ∈ metricKeys) :
    pyGet (l.filter (fun kv => kv.1 ∈ metricKeys)) k = pyGet l k := by
  induction l with
  | nil => rfl
  | cons kv rest ih =>
    rw [List.filter_cons]
    by_cases hmem : kv.1 ∈ metricKeys
    · rw [if_pos (by simpa using hmem), pyGet_cons, pyGet_cons]
      by_cases hkk : kv.1 = k
      · rw [if_pos hkk, if_pos hkk]
      · rw [if_neg hkk, if_neg hkk, ih]
    · rw [if_neg (by simpa using hmem), pyGet_cons, ih]
      have hkk : kv.1 ≠ k := fun he => hmem (he ▸ hk)
      rw [if_neg hkk]

/-- No record carried over by the metric diff has the name `count`. -/
theorem carriedMetrics_no_count :
    ∀ (existing : List RecordDict) (names : List String)
      (out : List RecordDict),
      carriedMetrics existing names = .ok out →
      ∀ m ∈ out, pyGet m "metric_name" ≠ some (PyVal.leaf (.s "count")) := by
  intro existing
  induction existing with
  | nil =>
    intro names out hrun m hm
    simp only [carriedMetrics] at hrun
    injection hrun with h
    subst h
    cases hm
  | cons rec rest ih =>
    intro names out hrun m hm
    simp only [carriedMetrics] at hrun
    cases hv : pyGet rec "metric_name" with
    | none => rw [hv] at hrun; cases hrun
    | some v =>
      rw [hv] at hrun
      cases htail : carriedMetrics rest names with
      | error e => rw [htail] at hrun; simp only [except_bind_error] at hrun; cases hrun
      | ok tail =>
        rw [htail] at hrun
        simp only [except_bind_ok] at hrun
        by_cases hcond : (v ≠ PyVal.leaf (.s "count") ∧
            v ∉ names.map (fun n => PyVal.leaf (.s n)))
        · rw [if_pos hcond] at hrun
          injection hrun with h
          subst h
          cases hm with
          | head =>
            rw [pyGet_projection rec (by decide), hv]
            intro he
            injection he with he'
            exact hcond.1 he'
          | tail _ hm' => exact ih names tail htail m hm'
        · rw [if_neg hcond] at hrun
          injection hrun with h
          subst h
          exact ih names tail htail m hm

/-- Every existing record qualifying for the carry-over survives into the
carried list as its projection onto `metric_keys`. -/
theorem carriedMetrics_mem :
    ∀ (existing : List RecordDict) (names : List String)
      (out : List RecordDict) (m : RecordDict) (v : PyVal),
      carriedMetrics existing names = .ok out →
      m ∈ existing →
      pyGet m "metric_name" = some v →
      v ≠ PyVal.leaf (.s "count") →
      v ∉ names.map (fun n => PyVal.leaf (.s n)) →
      m.filter (fun kv => kv.1 ∈ metricKeys) ∈ out := by
  intro existing
  induction existing with
  | nil =>
    intro names out m v _ hmem
    cases hmem
  | cons rec rest ih =>
    intro names out m v hrun hmem hname hcount hnames
    simp only [carriedMetrics] at hrun
    cases hmem with
    | head =>
      rw [hname] at hrun
      cases htail : carriedMetrics rest names with
      | error e => rw [htail] at hrun; cases hrun
      | ok tail =>
        rw [htail] at hrun
        simp only [except_bind_ok] at hrun
        rw [if_pos ⟨hcount, hnames⟩] at hrun
        injection hrun with h
        subst h
        exact List.mem_cons_self _ _
    | tail _ hmem' =>
      cases hv : pyGet rec "metric_name" with
      | none => rw [hv] at hrun; cases hrun
      | some w =>
        rw [hv] at hrun
        cases htail : carriedMetrics rest names with
        | error e => rw [htail] at hrun; simp only [except_bind_error] at hrun; cases hrun
        | ok tail =>
          rw [htail] at hrun
          simp only [except_bind_ok] at hrun
          have hin : m.filter (fun kv => kv.1 ∈ metricKeys) ∈ tail :=
            ih names tail m v htail hmem' hname hcount hnames
          by_cases hcond : (w ≠ PyVal.leaf (.s "count") ∧
              w ∉ names.map (fun n => PyVal.leaf (.s n)))
          · rw [if_pos hcond] at hrun
            injection hrun with h
            subst h
            exact List.mem_cons_of_mem _ hin
          · rw [if_neg hcond] at hrun
            injection hrun with h
            subst h
            exact hin

/-! ## C4 -/

/-- C4, counterexample: a remote dataset for `model.x` starts with a `count`
metric; after `sync_datasets` processes it, the stored metric list holds no
record named `count` — the reserved metric was not preserved. -/
theorem claim4_counterexample :
    (dsWithCount.metrics.any (fun m => pyGet m "metric_name" ==
      some (PyVal.leaf (.s "count")))) = true ∧
    (syncDatasets 5 cfg7 [modelX] []
        { datasets := [dsWithCount], nextId := 2 }).map
      (fun x => x.2.2.datasets.map (fun d =>
        d.metrics.filter (fun m => pyGet m "metric_name" ==
          some (PyVal.leaf (.s "count"))))) = .ok [[]] := by
  decide

/-- C4 (amended): an existing remote metric named `count` is excluded from
the metric payload `sync_datasets` re-pushes (no carried record is named
`count`), and since the base update first clears all metrics, a remote
`count` metric does not survive the update sequence: on a concrete run the
dataset ends holding only the projected `legacy` record. -/
theorem claim4_theorem :
    (∀ (existing : List RecordDict) (names : List String)
      (out : List RecordDict),
      carriedMetrics existing names = .ok out →
      ∀ m ∈ out, pyGet m "metric_name" ≠ some (PyVal.leaf (.s "count"))) ∧
    (syncDatasets 5 cfg7 [modelX] []
        { datasets := [dsWithCount], nextId := 2 }).map
      (fun x => x.2.2.datasets.map (fun d => d.metrics)) =
      .ok [[legacyProjected]] := by
  exact ⟨carriedMetrics_no_count, by decide⟩

/-- C4, witness: the general part evaluated on the concrete remote metric
list holding `count` and `legacy`. -/
theorem claim4_witness :
    pyGet legacyProjected "metric_name" ≠ some (PyVal.leaf (.s "count")) := by
  exact claim4_theorem.1 [countRecord, legacyRecord] [] [legacyProjected]
    (by decide) legacyProjected (by decide)

/-! ## C5 -/

/-- C5, counterexample: the remote `legacy` metric (not named `count`, not
in the manifest) has an `id` field before the round-trip; after
`sync_datasets` the stored record is its projection onto `metric_keys`,
which has no `id` field — so not all of its fields are equal before and
after. -/
theorem claim5_counterexample :
    pyGet legacyRecord "id" = some (.leaf (.i 11)) ∧
    (syncDatasets 5 cfg7 [modelX] []
        { datasets := [dsWithCount], nextId := 2 }).map
      (fun x => x.2.2.datasets.map (fun d => d.metrics)) =
      .ok [[legacyProjected]] ∧
    pyGet legacyProjected "id" = none ∧
    legacyProjected ≠ legacyRecord := by
  decide

/-- C5 (amended): an existing remote metric whose name is neither `count`
nor a manifest metric name survives the update round-trip only up to
projection onto the update payload keys (`metric_keys`): its projection is
carried into the re-pushed list (in general), and fields outside
`metric_keys` — such as the remote `id` — are dropped (concretely). -/
theorem claim5_theorem :
    (∀ (existing : List RecordDict) (names : List String)
      (out : List RecordDict) (m : RecordDict) (v : PyVal),
      carriedMetrics existing names = .ok out →
      m ∈ existing →
      pyGet m "metric_name" = some v →
      v ≠ PyVal.leaf (.s "count") →
      v ∉ names.map (fun n => PyVal.leaf (.s n)) →
      m.filter (fun kv => kv.1 ∈ metricKeys) ∈ out) ∧
    ((syncDatasets 5 cfg7 [modelX] []
        { datasets := [dsWithCount], nextId := 2 }).map
      (fun x => x.2.2.datasets.map (fun d => d.metrics)) =
      .ok [[legacyProjected]] ∧
    legacyRecord.filter (fun kv => kv.1 ∈ metricKeys) = legacyProjected) := by
  exact ⟨carriedMetrics_mem, by decide⟩

/-- C5, witness: the general part evaluated on the concrete metric list:
the `legacy` record survives as its projection. -/
theorem claim5_witness :
    legacyRecord.filter (fun kv => kv.1 ∈ metricKeys) ∈ [legacyProjected] := by
  exact claim5_theorem.1 [countRecord, legacyRecord] [] [legacyProjected]
    legacyRecord (PyVal.leaf (.s "legacy")) (by decide) (by decide) (by decide)
    (by decide) (by decide)

/-! ## C6 -/

/-- A timestamp column whose metadata explicitly sets `is_dttm` to false. -/
def tsOverrideFalseCol : ColumnSchema :=
  { data_type := "timestamp", meta := [("superset", .dict [("is_dttm", .b false)])] }

/-- A timestamp column whose metadata explicitly sets `is_dttm` to true. -/
def tsOverrideTrueCol : ColumnSchema :=
  { data_type := "timestamp", meta := [("superset", .dict [("is_dttm", .b true)])] }

/-- A timestamp column with no metadata. -/
def tsPlainCol : ColumnSchema := { data_type := "timestamp" }

/-- C6, counterexample: on a timestamp column whose `meta.superset.is_dttm`
explicitly overrides to false, the code pushes `is_dttm = true` (the claim
says false); and on a timestamp column overriding to true, it pushes
`is_dttm = false` (the claim says true). -/
theorem claim6_counterexample :
    tsOverrideFalseCol.data_type = "timestamp" ∧
    colSupersetIsDttm tsOverrideFalseCol = .ok (.b false) ∧
    colIsDttm tsOverrideFalseCol = .ok true ∧
    tsOverrideTrueCol.data_type = "timestamp" ∧
    colSupersetIsDttm tsOverrideTrueCol = .ok (.b true) ∧
    colIsDttm tsOverrideTrueCol = .ok false := by
  decide

/-- C6 (amended): the pushed `is_dttm` flag is computed from the column's
(not the model's) `meta.superset.is_dttm` value, with inverted override
logic: when that value is absent or falsy the flag is `data_type ==
"timestamp"`, and when it is truthy (e.g. explicitly true) the flag is
false; an explicit false override therefore does not force the flag false.
The column update payload carries exactly this flag. -/
theorem claim6_theorem :
    (∀ (c : ColumnSchema) (ov : PyLeaf), colSupersetIsDttm c = .ok ov →
      colIsDttm c = .ok (if pyTruthy ov then false
        else c.data_type == "timestamp")) ∧
    (∀ (nm : String) (c : ColumnSchema) (rec : RecordDict),
      colEntry (nm, c) = .ok rec →
      ∃ b, colIsDttm c = .ok b ∧
        pyGet rec "is_dttm" = some (PyVal.leaf (.b b))) := by
  constructor
  · intro c ov h
    simp only [colIsDttm, h, except_bind_ok]
    cases hov : pyTruthy ov <;> simp
  · intro nm c rec hrec
    simp only [colEntry] at hrec
    cases hb : colIsDttm c with
    | error e => rw [hb] at hrec; cases hrec
    | ok b =>
      rw [hb] at hrec
      simp only [except_bind_ok] at hrec
      injection hrec with h
      subst h
      exact ⟨b, rfl, by simp [pyGet]⟩

/-- C6, witness: the amended formula evaluated on the three concrete
columns. -/
theorem claim6_witness :
    colIsDttm tsOverrideFalseCol = .ok true := by
  rw [claim6_theorem.1 tsOverrideFalseCol (.b false) (by decide)]
  decide

/-! ## C8 -/

/-- A manifest metric attached to `model.x` carrying a `meta.superset`
override bag next to another metadata key. -/
def bagMetric : MetricSchema :=
  { name := "rev", calculation_method := "sum", expression := "amount",
    depends_on := ["model.x"],
    meta := [("superset", .dict [("d3format", .s ",d")]),
             ("note", .leaf (.s "k"))] }

/-- The same metric after `sync_datasets` has processed it: its `meta`
dictionary has lost the `superset` key. -/
def bagMetricPopped : MetricSchema :=
  { bagMetric with meta := [("note", .leaf (.s "k"))] }

/-- C8: `sync_datasets` does not treat the manifest as immutable — the
`meta.pop("superset", {})` on line 165 mutates the metric record shared
with the caller's manifest list: after a successful run over one model and
one attached metric, the metric's `meta` dictionary has lost its
`superset` key. -/
theorem claim8_theorem :
    (syncDatasets 5 cfg7 [modelX] [bagMetric]
        { datasets := [dupA], nextId := 2 }).map (fun x => x.2.1) =
      .ok [bagMetricPopped] ∧
    bagMetricPopped ≠ bagMetric ∧
    pyGet bagMetric.meta "superset" =
      some (.dict [("d3format", .s ",d")]) ∧
    pyGet bagMetricPopped.meta "superset" = none := by
  decide

/-! ## C3 -/

/-- When more than one candidate dataset remains after the unique-id
filtering, the whole `sync_datasets` call fails with the uncaught
`More than one dataset found` exception. -/
theorem processModel_ambiguous (fuel : Nat) (cfg : SyncCfg)
    (model : ModelSchema) (manifest : List MetricSchema) (st : SyncState)
    (filtered : List RemoteDataset)
    (h1 : (clientGetDatasets st cfg.databaseId (tableNameOf model)).length > 1)
    (h2 : filterByUid (clientGetDatasets st cfg.databaseId (tableNameOf model))
      model.unique_id = .ok filtered)
    (h3 : filtered.length > 1) :
    processModel fuel cfg model manifest st = .error .ambiguous := by
  simp only [processModel]
  rw [if_pos h1, h2]
  simp only [except_bind_ok]
  rw [if_pos h3]

/-- C3, counterexample: with two remote datasets on table `t` neither of
which matches `model.x`'s unique identifier, the claim predicts an error
recorded for the model and nothing added for it; the code instead falls
through to creation, adds the created dataset to the result list, and
records no error. -/
theorem claim3_counterexample :
    (syncDatasets 5 cfg7 [modelX] []
        { datasets := [strangerA, strangerB], nextId := 3 }).map
      (fun x => x.1) = .ok [createdRecord 7 "s" "t" 3] ∧
    [createdRecord 7 "s" "t" 3] ≠ ([] : List RemoteDataset) := by
  decide

/-- C3 (amended): when more than one remote dataset shares the model's
table name, the candidates are filtered by the unique identifier in their
`extra` blobs; if more than one candidate still remains, `sync_datasets`
raises an uncaught exception that aborts the entire batch (no result list,
no subsequent model processed); if zero candidates remain, no error is
recorded — the model falls through to the creation path and its created
dataset is added to the result list. -/
theorem claim3_theorem :
    (∀ (fuel : Nat) (cfg : SyncCfg) (model : ModelSchema)
      (rest : List ModelSchema) (manifest : List MetricSchema)
      (st : SyncState) (filtered : List RemoteDataset),
      (clientGetDatasets st cfg.databaseId (tableNameOf model)).length > 1 →
      filterByUid (clientGetDatasets st cfg.databaseId (tableNameOf model))
        model.unique_id = .ok filtered →
      filtered.length > 1 →
      syncDatasets fuel cfg (model :: rest) manifest st =
        .error .ambiguous) ∧
    (syncDatasets 5 cfg7 [modelX] []
        { datasets := [strangerA, strangerB], nextId := 3 }).map
      (fun x => x.1) = .ok [createdRecord 7 "s" "t" 3] := by
  constructor
  · intro fuel cfg model rest manifest st filtered h1 h2 h3
    have hp := processModel_ambiguous fuel cfg model manifest st filtered h1 h2 h3
    simp only [syncDatasets, hp, except_bind_error]
  · decide

/-- C3, witness: the abort statement evaluated on two candidates both
matching `model.x`, with a second model pending: the whole call errors. -/
theorem claim3_witness :
    syncDatasets 5 cfg7 [modelX, modelY] []
      { datasets := [dupA, dupB], nextId := 3 } = .error .ambiguous := by
  exact claim3_theorem.1 5 cfg7 modelX [modelY] []
    { datasets := [dupA, dupB], nextId := 3 } [dupA, dupB]
    (by decide) (by decide) (by decide)

/-! ## C7 -/

/-- The base update payload always succeeds once the model's override bag
is a dictionary. -/
theorem baseUpdatePayload_ok (cfg : SyncCfg) (model : ModelSchema)
    (bag : PyDict) (hbag : supersetBag model.meta = .ok bag) :
    ∃ pay, baseUpdatePayload cfg model = .ok pay := by
  simp only [baseUpdatePayload, hbag, except_bind_ok]
  by_cases h : cfg.externalUrl ≠ ""
  · rw [if_pos h]
    exact ⟨_, rfl⟩
  · rw [if_neg h]
    exact ⟨_, rfl⟩

/-- With an empty manifest, a freshly located dataset with no metrics is
pushed through the update sequence successfully and returned. -/
theorem afterLocate_fresh (fuel : Nat) (cfg : SyncCfg) (model : ModelSchema)
    (st : SyncState) (ds : RemoteDataset) (bag : PyDict)
    (cols : List RecordDict)
    (hfind : clientGetDataset st ds.id = some ds)
    (hmetrics : ds.metrics = [])
    (hbag : supersetBag model.meta = .ok bag)
    (hcols : columnsPayload model.columns = .ok cols) :
    ∃ st', afterLocate fuel cfg model [] st ds = .ok (some ds, [], st') := by
  obtain ⟨pay, hpay⟩ := baseUpdatePayload_ok cfg model bag hbag
  simp only [afterLocate, hfind, hmetrics, hpay, hcols,
    buildModelMetrics, buildModelMetricsGo, carriedMetrics, buildNewMetrics,
    except_bind_ok, List.nil_append]
  simp only [ne_eq, not_true_eq_false, if_false, reduceIte]
  exact ⟨_, rfl⟩

/-- With an empty remote state, `processModel` on a model whose creation
succeeds reduces to `afterLocate` on the freshly created record. -/
theorem processModel_fresh (fuel : Nat) (cfg : SyncCfg) (model : ModelSchema)
    (manifest : List MetricSchema) (n : Nat)
    (h2 : tableNameOf model ∉ cfg.failCreate) :
    processModel fuel cfg model manifest { datasets := [], nextId := n } =
      afterLocate fuel cfg model manifest
        { datasets :=
            [createdRecord cfg.databaseId model.schema (tableNameOf model) n],
          nextId := n + 1 }
        (createdRecord cfg.databaseId model.schema (tableNameOf model) n) := by
  simp only [processModel, clientGetDatasets, List.filter_nil,
    List.length_nil, List.head?_nil, except_bind_ok]
  simp only [show ¬(0 > 1) by decide, if_false, reduceIte]
  rw [if_neg h2]
  rfl

/-- C7: when the remote create call fails for the first model,
`sync_datasets` skips it and continues: the returned list holds exactly the
dataset record of the successfully reconciled second model, with the failed
model silently omitted. -/
theorem claim7_theorem (fuel n : Nat) (cfg : SyncCfg) (m1 m2 : ModelSchema)
    (bag : PyDict) (cols : List RecordDict)
    (h1 : tableNameOf m1 ∈ cfg.failCreate)
    (h2 : tableNameOf m2 ∉ cfg.failCreate)
    (hbag : supersetBag m2.meta = .ok bag)
    (hcols : columnsPayload m2.columns = .ok cols) :
    (syncDatasets fuel cfg [m1, m2] [] { datasets := [], nextId := n }).map
      (fun x => x.1) =
      .ok [createdRecord cfg.databaseId m2.schema (tableNameOf m2) n] := by
  have hskip : processModel fuel cfg m1 [] { datasets := [], nextId := n } =
      .ok (none, [], { datasets := [], nextId := n }) := by
    simp only [processModel, clientGetDatasets, List.filter_nil,
      List.length_nil, List.head?_nil, except_bind_ok]
    simp only [show ¬(0 > 1) by decide, if_false, reduceIte]
    rw [if_pos h1]
  have hfind : clientGetDataset
      { datasets :=
          [createdRecord cfg.databaseId m2.schema (tableNameOf m2) n],
        nextId := n + 1 }
      (createdRecord cfg.databaseId m2.schema (tableNameOf m2) n).id =
      some (createdRecord cfg.databaseId m2.schema (tableNameOf m2) n) := by
    simp [clientGetDataset, createdRecord]
  obtain ⟨st', hst'⟩ := afterLocate_fresh fuel cfg m2
    { datasets := [createdRecord cfg.databaseId m2.schema (tableNameOf m2) n],
      nextId := n + 1 }
    (createdRecord cfg.databaseId m2.schema (tableNameOf m2) n)
    bag cols hfind rfl hbag hcols
  have hm2 := (processModel_fresh fuel cfg m2 [] n h2).trans hst'
  simp only [syncDatasets, hskip, hm2, except_bind_ok, Option.toList,
    List.nil_append, List.append_nil, Except.map]

/-- C7, witness: the statement evaluated on two concrete models, the first
of which fails to create. -/
theorem claim7_witness :
    (syncDatasets 5 cfgFail [modelX, modelY] []
      { datasets := [], nextId := 0 }).map (fun x => x.1) =
      .ok [createdRecord 7 "s" "u" 0] := by
  exact claim7_theorem 5 0 cfgFail modelX modelY [] []
    (by decide) (by decide) (by decide) (by decide)

/-! ## C10 -/

/-- A derived manifest metric whose nested name group references `ghost`,
a name matching no manifest metric. -/
def danglingMetric (ghost : String) : MetricSchema :=
  { name := "parent", calculation_method := "derived", expression := "x",
    metrics := [[ghost]] }

/-- Computing the dependency closure over a manifest whose only metric
references a name it does not contain indexes the first element of an empty
filtered list: `IndexError`. -/
theorem buildModelMetrics_dangling (fuel : Nat) (ghost uid : String)
    (h2 : ghost ≠ "parent") :
    buildModelMetrics (fuel + 1) [danglingMetric ghost] uid =
      .error .indexError := by
  have h2' : ("parent" : String) ≠ ghost := fun h => h2 h.symm
  simp only [buildModelMetrics, buildModelMetricsGo, getDepsMetrics,
    getDepsList, danglingMetric]
  simp [h2']

/-- C10: a manifest metric with a nested `metrics` name group referencing a
name that matches no manifest metric makes `sync_datasets` fail with an
uncaught `IndexError` while computing the dependency closure of the first
model it processes — the entire batch aborts (the pending second model is
never processed and no list is returned). -/
theorem claim10_theorem (fuel n : Nat) (cfg : SyncCfg)
    (model modelB : ModelSchema) (ghost : String)
    (h1 : tableNameOf model ∉ cfg.failCreate)
    (h2 : ghost ≠ "parent") :
    syncDatasets (fuel + 1) cfg [model, modelB] [danglingMetric ghost]
      { datasets := [], nextId := n } = .error .indexError := by
  have hfind : clientGetDataset
      { datasets :=
          [createdRecord cfg.databaseId model.schema (tableNameOf model) n],
        nextId := n + 1 }
      (createdRecord cfg.databaseId model.schema (tableNameOf model) n).id =
      some (createdRecord cfg.databaseId model.schema (tableNameOf model) n) := by
    simp [clientGetDataset, createdRecord]
  have hafter : afterLocate (fuel + 1) cfg model [danglingMetric ghost]
      { datasets :=
          [createdRecord cfg.databaseId model.schema (tableNameOf model) n],
        nextId := n + 1 }
      (createdRecord cfg.databaseId model.schema (tableNameOf model) n) =
      .error .indexError := by
    simp only [afterLocate, hfind, except_bind_ok,
      buildModelMetrics_dangling fuel ghost model.unique_id h2,
      except_bind_error]
  have hproc := (processModel_fresh (fuel + 1) cfg model [danglingMetric ghost]
    n h1).trans hafter
  simp only [syncDatasets, hproc, except_bind_error]

/-- C10, witness: the statement evaluated on a concrete model and a
concrete dangling reference. -/
theorem claim10_witness :
    syncDatasets 5 cfg7 [modelX, modelY] [danglingMetric "ghost"]
      { datasets := [], nextId := 0 } = .error .indexError := by
  exact claim10_theorem 4 0 cfg7 modelX modelY "ghost" (by decide) (by decide)
